import Mathlib

/-!
# UCShareCar backend — verification of the request-handler layer

This file shallowly embeds the Express request handlers of
`src/backend/app.js` and the report schema of `src/backend/models/report.js`.

Each handler is modelled as a pure function from its inputs — the
(optional) validated session, the parsed request-body fields it reads, and
the outcomes of the asynchronous collaborator calls it makes (database,
identity verifier) — to a `HandlerOut` trace recording every response
written, every persistence-layer call issued (with the exact document
passed), every notification dispatched, every session created/destroyed,
and any exception thrown out of the handler body.

Collaborators whose code is not in `src/` (`session_helpers.js`, `db.js`,
`google_login.js`, `notifications.js`) are modelled from the spec where a
claim depends on their behaviour; such definitions carry a
`Modelled from the spec:` doc comment.
-/

namespace UCShareCar

abbrev UserId := String
abbrev PostId := String

/-- The payload of a valid signed session cookie (`req.signedCookies.session`),
carrying the logged-in user's id. -/
structure SessionData where
  id : UserId
deriving Repr, DecidableEq

/-- A verified Google identity, the resolution value of
`google_login.verify(token)`: an email and a name. -/
structure VerifiedUser where
  email : String
  name : String
deriving Repr, DecidableEq

/-- The user document `app.js` passes to `db.user.create` on first login:
literally `{'name': user.name, 'email': user.email}` (lines 90–93). -/
structure UserDoc where
  name : String
  email : String
deriving Repr, DecidableEq

/-- A user document as returned by `db.user.find_with_id`; the handler never
inspects it, only forwards it, so it is kept as an opaque JSON object
(key/value pairs). -/
abbrev StoredUser := List (String × String)

/-- The client-supplied post object `req.body.post` as read by
`app.post('/posts/create')` and `app.post('/post/update')`. Field names
follow `app.js`: `uploader`, `driverneeded`, `passengers`, `driver`, `_id`;
the remaining ride fields (origin, destination, memo, seat count, departure
time) are carried through untouched by the handlers.
`passengers` is `Option` because a JSON body may omit the array entirely
(`req.body.post.passengers` is then `undefined`). -/
structure PostBody where
  _id : Option PostId := none
  uploader : Option UserId := none
  driver : Option UserId := none
  passengers : Option (List UserId) := none
  driverneeded : Bool := false
  origin : String := ""
  destination : String := ""
  memo : String := ""
  totalseats : Nat := 0
  departtime : Nat := 0
deriving Repr, DecidableEq

/-- Modelled from the spec: a post document at rest in the persistence layer
(`db.js` is not in `src/`). Spec §3: a post has a driver (optional user
reference), an uploader, an ordered passenger list, and a total seat
count, plus the ride fields. -/
structure StoredPost where
  driver : Option UserId := none
  uploader : Option UserId := none
  passengers : List UserId := []
  totalseats : Nat := 0
  origin : String := ""
  destination : String := ""
  memo : String := ""
  departtime : Nat := 0
deriving Repr, DecidableEq

/-- The report object `req.body.report` forwarded verbatim to
`db.report.create_report`; the handler never inspects it. -/
abbrev ReportBody := List (String × String)

/-- The resolution value of `db.report.create_report`, of which the handler
reads only `_id` (line 398). -/
structure CreatedReport where
  _id : String
deriving Repr, DecidableEq

/-- One JSON response written via `res.json`/`res.send`.
Fields the handler's object literal does not mention default to `none`
(absent from the JSON). `status` is set when the handler chains
`res.status(...)` before sending (404/500 paths). -/
structure Envelope where
  status : Option Nat := none
  result : Option Nat := none
  success : Option Bool := none
  needs_register : Option Bool := none
  error : Option String := none
  user_id : Option UserId := none
  post_id : Option PostId := none
  report_id : Option String := none
  user : Option StoredUser := none
  post : Option StoredPost := none
  posts : Option (List StoredPost) := none
deriving Repr, DecidableEq

/-- A call into the persistence layer (`db.js`), with the exact arguments the
handler passes. -/
inductive DbCall where
  | userCheckRegistered (email : String)
  | userCreate (doc : UserDoc)
  | userAddPhnum (id : UserId) (phnum : Option String)
  | userFindWithId (id : String)
  | userSetFcmToken (id : UserId) (token : String)
  | postFindAll
  | postFindWithId (id : PostId)
  | postSearch (start stop : String)
  | postMyPage (id : UserId)
  | postCreate (doc : PostBody)
  | postUpdate (doc : PostBody)
  | postAddPassenger (pid : PostId) (uid : UserId)
  | postAddDriver (pid : PostId) (avail : Option Nat) (uid : UserId)
  | postUpdatePost (uid : UserId)
  | reportCreate (uid : UserId) (report : Option ReportBody)
deriving Repr, DecidableEq

/-- The observable trace of one handler invocation: responses written,
persistence calls made, identity-verifier calls made, sessions
created/destroyed, notifications dispatched, and any exception thrown out
of the handler body (which then produces no response from the handler). -/
structure HandlerOut where
  responses : List Envelope := []
  dbCalls : List DbCall := []
  verifyCalls : List (Option String) := []
  sessionCreates : List UserId := []
  sessionDestroyed : Bool := false
  notifyCalls : List (Option PostId × UserId) := []
  threw : Option String := none
deriving Repr, DecidableEq

/-- Modelled from the spec: the unauthenticated response that
`sessions.validate` (in `session_helpers.js`, not in `src/`) writes before
returning `false`. Spec §4.1: absence or invalidity of the session
"short-circuits the request with an unauthenticated response". -/
def unauthenticatedResponse : Envelope :=
  { result := some 0, error := some "unauthenticated" }

/-- Modelled from the spec: the whole trace of a handler whose session gate
rejected — `sessions.validate` wrote the unauthenticated response, the
handler returned immediately, and nothing else happened. -/
def sessionGateReject : HandlerOut :=
  { responses := [unauthenticatedResponse] }

/-! ## The handlers of `app.js` -/

/-- `app.get('/')` (lines 54–57): always responds `{result: 1}`. -/
def handle_index : HandlerOut :=
  { responses := [{ result := some 1 }] }

/-- `app.post('/users/login')` (lines 66–107). Faithful to the source,
including the missing `return` after the missing-token response (line 70):
the handler falls through and still calls `google_login.verify` with the
(absent) token. `checkReg` is the outcome of `db.user.check_registered`
(resolves with the user id, or rejects when the email is unknown);
`createResult` is the outcome of `db.user.create`. -/
def handle_users_login (token : Option String)
    (verifyResult : Except String VerifiedUser)
    (checkReg : Except Unit UserId)
    (createResult : Except String UserId) : HandlerOut :=
  let pre : List Envelope :=
    if token.isNone then
      [{ success := some false, needs_register := some false }]
    else []
  match verifyResult with
  | .error _ =>
      { verifyCalls := [token],
        responses := pre ++ [{ success := some false, needs_register := some false }] }
  | .ok user =>
    match checkReg with
    | .ok id =>
        { verifyCalls := [token],
          dbCalls := [.userCheckRegistered user.email],
          sessionCreates := [id],
          responses := pre ++
            [{ success := some true, needs_register := some false, user_id := some id }] }
    | .error _ =>
      match createResult with
      | .ok id =>
          { verifyCalls := [token],
            dbCalls := [.userCheckRegistered user.email,
                        .userCreate { name := user.name, email := user.email }],
            sessionCreates := [id],
            responses := pre ++
              [{ success := some false, needs_register := some true, user_id := some id }] }
      | .error _ =>
          { verifyCalls := [token],
            dbCalls := [.userCheckRegistered user.email,
                        .userCreate { name := user.name, email := user.email }],
            responses := pre ++
              [{ success := some false, needs_register := some false }] }

/-- `app.post('/users/logout')` (lines 114–120): session-gated; destroys the
session and responds `{result: 1}`. -/
def handle_users_logout (session : Option SessionData) : HandlerOut :=
  match session with
  | none => sessionGateReject
  | some _ =>
      { sessionDestroyed := true, responses := [{ result := some 1 }] }

/-- `app.post('/users/register')` (lines 132–148). Faithful to the source:
the missing-`phnum` response (line 138) is not followed by a `return`, so
the handler continues and calls `db.user.add_phnum` with `undefined`. -/
def handle_users_register (session : Option SessionData) (phnum : Option String)
    (addResult : Except Unit Unit) : HandlerOut :=
  match session with
  | none => sessionGateReject
  | some s =>
    let pre : List Envelope :=
      if phnum.isNone then
        [{ success := some false, error := some "Did not recieve a phone number" }]
      else []
    match addResult with
    | .ok _ =>
        { dbCalls := [.userAddPhnum s.id phnum],
          responses := pre ++ [{ success := some true }] }
    | .error _ =>
        { dbCalls := [.userAddPhnum s.id phnum],
          responses := pre ++ [{ success := some false }] }

/-- `app.get('/users/by_id/:user_id')` (lines 157–172): session-gated; a
missing `user_id` is rejected with an immediate `return`, before any
persistence call. -/
def handle_users_by_id (session : Option SessionData) (user_id : Option String)
    (findResult : Except String StoredUser) : HandlerOut :=
  match session with
  | none => sessionGateReject
  | some _ =>
    match user_id with
    | none =>
        { responses := [{ result := some 0, error := some "Did not recieve an ID" }] }
    | some uid =>
      match findResult with
      | .ok u =>
          { dbCalls := [.userFindWithId uid],
            responses := [{ result := some 1, user := some u }] }
      | .error e =>
          { dbCalls := [.userFindWithId uid],
            responses := [{ result := some 0, error := some e }] }

/-- `app.post('/users/register_fcm')` (lines 178–194): session-gated; a
missing `token` is rejected with an immediate `return`. -/
def handle_users_register_fcm (session : Option SessionData) (token : Option String)
    (setResult : Except String Unit) : HandlerOut :=
  match session with
  | none => sessionGateReject
  | some s =>
    match token with
    | none =>
        { responses := [{ result := some 0, error := some "Did not recieve token" }] }
    | some tok =>
      match setResult with
      | .ok _ =>
          { dbCalls := [.userSetFcmToken s.id tok],
            responses := [{ result := some 1 }] }
      | .error e =>
          { dbCalls := [.userSetFcmToken s.id tok],
            responses := [{ result := some 0, error := some e }] }

/-- `app.get('/posts/all')` (lines 202–210): session-gated; failure path
responds HTTP 500 with `{result: 0, error: 'database failure'}`. -/
def handle_posts_all (session : Option SessionData)
    (findResult : Except String (List StoredPost)) : HandlerOut :=
  match session with
  | none => sessionGateReject
  | some _ =>
    match findResult with
    | .ok ps =>
        { dbCalls := [.postFindAll],
          responses := [{ result := some 1, posts := some ps }] }
    | .error _ =>
        { dbCalls := [.postFindAll],
          responses := [{ status := some 500, result := some 0,
                          error := some "database failure" }] }

/-- `app.get('/posts/by_id/:post_id')` (lines 218–236): session-gated; a
falsy `post_id` is rejected with an immediate `return`; a null lookup
result yields HTTP 404. -/
def handle_posts_by_id (session : Option SessionData) (post_id : Option PostId)
    (findResult : Except String (Option StoredPost)) : HandlerOut :=
  match session with
  | none => sessionGateReject
  | some _ =>
    match post_id with
    | none =>
        { responses := [{ result := some 0, error := some "No post_id passed" }] }
    | some pid =>
      match findResult with
      | .ok none =>
          { dbCalls := [.postFindWithId pid],
            responses := [{ status := some 404, result := some 0,
                            error := some "post not found" }] }
      | .ok (some p) =>
          { dbCalls := [.postFindWithId pid],
            responses := [{ result := some 1, post := some p }] }
      | .error e =>
          { dbCalls := [.postFindWithId pid],
            responses := [{ status := some 500, result := some 0, error := some e }] }

/-- `app.get('/posts/search/:start/:end')` (lines 241–249). -/
def handle_posts_search (session : Option SessionData) (start stop : String)
    (searchResult : Except String (List StoredPost)) : HandlerOut :=
  match session with
  | none => sessionGateReject
  | some _ =>
    match searchResult with
    | .ok ps =>
        { dbCalls := [.postSearch start stop],
          responses := [{ result := some 1, posts := some ps }] }
    | .error _ =>
        { dbCalls := [.postSearch start stop],
          responses := [{ status := some 500, result := some 0,
                          error := some "database failure" }] }

/-- `app.get('/posts/my_page')` (lines 254–262). -/
def handle_posts_my_page (session : Option SessionData)
    (myPageResult : Except String (List StoredPost)) : HandlerOut :=
  match session with
  | none => sessionGateReject
  | some s =>
    match myPageResult with
    | .ok ps =>
        { dbCalls := [.postMyPage s.id],
          responses := [{ result := some 1, posts := some ps }] }
    | .error e =>
        { dbCalls := [.postMyPage s.id],
          responses := [{ result := some 0, error := some e }] }

/-- `app.post('/posts/create')` (lines 270–295): session-gated; a missing
`post` body is rejected with an immediate `return`; otherwise the handler
overwrites `post.uploader` with the session id, then — if
`post.driverneeded` is truthy — pushes the session id onto
`post.passengers` (a thrown `TypeError` when the body has no `passengers`
array), else sets `post.driver` to the session id, and finally passes the
mutated document to `db.post.create`. -/
def handle_posts_create (session : Option SessionData) (post : Option PostBody)
    (createResult : Except String PostId) : HandlerOut :=
  match session with
  | none => sessionGateReject
  | some s =>
    match post with
    | none =>
        { responses := [{ result := some 0, error := some "No post passed to create" }] }
    | some p =>
      let p := { p with uploader := some s.id }
      if p.driverneeded then
        match p.passengers with
        | none =>
            { threw := some "TypeError: cannot read push of undefined" }
        | some ps =>
          let doc := { p with passengers := some (ps ++ [s.id]) }
          match createResult with
          | .ok id =>
              { dbCalls := [.postCreate doc],
                responses := [{ result := some 1, post_id := some id }] }
          | .error e =>
              { dbCalls := [.postCreate doc],
                responses := [{ result := some 0, error := some e }] }
      else
        let doc := { p with driver := some s.id }
        match createResult with
        | .ok id =>
            { dbCalls := [.postCreate doc],
              responses := [{ result := some 1, post_id := some id }] }
        | .error e =>
            { dbCalls := [.postCreate doc],
              responses := [{ result := some 0, error := some e }] }

/-- `app.post('/post/update')` (lines 304–321): session-gated; a missing
`post` body is rejected with an immediate `return`; on success a
notification is dispatched for `post._id`, excluding the caller. -/
def handle_post_update (session : Option SessionData) (post : Option PostBody)
    (updateResult : Except String Unit) : HandlerOut :=
  match session with
  | none => sessionGateReject
  | some s =>
    match post with
    | none =>
        { responses := [{ result := some 0, error := some "no post passed" }] }
    | some p =>
      match updateResult with
      | .ok _ =>
          { dbCalls := [.postUpdate p],
            notifyCalls := [(p._id, s.id)],
            responses := [{ result := some 1 }] }
      | .error e =>
          { dbCalls := [.postUpdate p],
            responses := [{ result := some 0, error := some e }] }

/-- `app.post('/posts/add_passenger')` (lines 332–349): session-gated; a
missing `post_id` is rejected with an immediate `return`; otherwise the
outcome of `db.post.add_passenger` is surfaced, with a notification on
success. -/
def handle_posts_add_passenger (session : Option SessionData) (post_id : Option PostId)
    (addResult : Except String Unit) : HandlerOut :=
  match session with
  | none => sessionGateReject
  | some s =>
    match post_id with
    | none =>
        { responses := [{ result := some 0, error := some "No post id" }] }
    | some pid =>
      match addResult with
      | .ok _ =>
          { dbCalls := [.postAddPassenger pid s.id],
            notifyCalls := [(some pid, s.id)],
            responses := [{ result := some 1 }] }
      | .error e =>
          { dbCalls := [.postAddPassenger pid s.id],
            responses := [{ result := some 0, error := some e }] }

/-- `app.post('/posts/add_driver')` (lines 358–375): session-gated; a missing
`post_id` is rejected with an immediate `return`. -/
def handle_posts_add_driver (session : Option SessionData) (post_id : Option PostId)
    (avail : Option Nat) (addResult : Except String Unit) : HandlerOut :=
  match session with
  | none => sessionGateReject
  | some s =>
    match post_id with
    | none =>
        { responses := [{ result := some 0, error := some "No post id" }] }
    | some pid =>
      match addResult with
      | .ok _ =>
          { dbCalls := [.postAddDriver pid avail s.id],
            notifyCalls := [(some pid, s.id)],
            responses := [{ result := some 1 }] }
      | .error e =>
          { dbCalls := [.postAddDriver pid avail s.id],
            responses := [{ result := some 0, error := some e }] }

/-- `app.put('/posts/update/:post_id')` (lines 377–391): session-gated; the
whole request is delegated to `db.post.update_post`. A null resolution
yields HTTP 404 `{error: 'post not found'}` (no `result` field); a
rejection yields `{result: 0}` with the rejection message discarded
(line 389). -/
def handle_put_posts_update (session : Option SessionData)
    (updateResult : Except String (Option StoredPost)) : HandlerOut :=
  match session with
  | none => sessionGateReject
  | some s =>
    match updateResult with
    | .ok none =>
        { dbCalls := [.postUpdatePost s.id],
          responses := [{ status := some 404, error := some "post not found" }] }
    | .ok (some _) =>
        { dbCalls := [.postUpdatePost s.id],
          responses := [{ result := some 1 }] }
    | .error _ =>
        { dbCalls := [.postUpdatePost s.id],
          responses := [{ result := some 0 }] }

/-- `app.post('/report')` (lines 393–402): session-gated; forwards the
caller's id and `req.body.report` to `db.report.create_report` and
responds with the created report's `_id`. -/
def handle_report (session : Option SessionData) (report : Option ReportBody)
    (createResult : Except String CreatedReport) : HandlerOut :=
  match session with
  | none => sessionGateReject
  | some s =>
    match createResult with
    | .ok r =>
        { dbCalls := [.reportCreate s.id report],
          responses := [{ result := some 1, report_id := some r._id }] }
    | .error e =>
        { dbCalls := [.reportCreate s.id report],
          responses := [{ result := some 0, error := some e }] }

/-! ## Spec-modelled persistence for add-passenger (db.js is not in src/) -/

/-- Modelled from the spec: `db.post.add_passenger` of `db.js` (not in
`src/`). The handler comment (app.js lines 324–327) and spec §4.4 state:
the user will NOT be added as a passenger if there is no driver or if
there is no space; the violation is reported as a rejection (surfaced by
the handler as a failure), not silently applied. -/
def dbPostAddPassenger (store : List (PostId × StoredPost)) (pid : PostId)
    (uid : UserId) : Except String (List (PostId × StoredPost)) :=
  match store.lookup pid with
  | none => .error "post not found"
  | some post =>
    if post.driver = none then .error "post has no driver"
    else if post.totalseats ≤ post.passengers.length then .error "post has no space"
    else .ok (store.map (fun e =>
        if e.1 = pid then (pid, { post with passengers := post.passengers ++ [uid] }) else e))

/-- The add-passenger request end to end: the handler of
`app.post('/posts/add_passenger')` composed with the (spec-modelled)
persistence operation over a concrete post store. Returns the handler
trace together with the store after the request. -/
def run_posts_add_passenger (session : Option SessionData) (post_id : Option PostId)
    (store : List (PostId × StoredPost)) : HandlerOut × List (PostId × StoredPost) :=
  match session, post_id with
  | some s, some pid =>
    match dbPostAddPassenger store pid s.id with
    | .ok store2 => (handle_posts_add_passenger session post_id (.ok ()), store2)
    | .error e => (handle_posts_add_passenger session post_id (.error e), store)
  | _, _ => (handle_posts_add_passenger session post_id (.ok ()), store)

/-! ## The report schema (`src/backend/models/report.js`) -/

/-- The type of one field of a mongoose schema, as far as `report.js` and the
claims about it need: a plain string, a date (optionally defaulted to
now), an ObjectId reference to another model, or an embedded
subdocument. -/
inductive FieldType where
  | str : FieldType
  | date (defaultNow : Bool) : FieldType
  | ref (model : String) : FieldType
  | subdoc (fields : List (String × FieldType)) : FieldType
deriving Repr

/-- `reportSchema` of `src/backend/models/report.js` (lines 4–14): both
`reporter` and `reported` are embedded subdocuments holding a single
string field `email`; `title` and `body` are strings; `reporttime` is a
date defaulting to now. -/
def reportSchema : List (String × FieldType) :=
  [ ("reporter", .subdoc [("email", .str)]),
    ("reported", .subdoc [("email", .str)]),
    ("title", .str),
    ("body", .str),
    ("reporttime", .date true) ]

/-- Formalisation of the claim's words (spec §3: "Report.reporter references
User.identifier"): the schema would have to declare `reporter` as an
ObjectId reference to the user model. -/
def reporterIsUserRef : Prop :=
  ∃ model, reportSchema.lookup "reporter" = some (FieldType.ref model)

/-- Whether a schema field type is an ObjectId reference to another model. -/
def FieldType.isRef : FieldType → Bool
  | .ref _ => true
  | _ => false

/-! ## Helper definitions for the properties below -/

/-- A handler trace that ended normally with at least one response written
(no exception escaped the handler body). -/
def terminatesWithResponse (o : HandlerOut) : Bool :=
  o.threw.isNone && !o.responses.isEmpty

/-- The create-post bodies on which the handler body throws: `driverneeded`
truthy with no `passengers` array to push onto. -/
def createThrows (post : Option PostBody) : Bool :=
  match post with
  | some p => p.driverneeded && p.passengers.isNone
  | none => false

/-- A create-post request body that claims a driver while asking for one:
`driverneeded` is set and a `driver` value is also supplied. -/
def bodyWithForeignDriver : PostBody :=
  { driverneeded := true, driver := some "mallory", passengers := some [] }

/-- A create-post request body with `driverneeded` set and no `passengers`
array at all. -/
def bodyWithoutPassengers : PostBody :=
  { driverneeded := true }

/-! ## Claims -/

/-- C1: for every create-post request with a valid session and a post body,
the post document passed to `db.post.create` has its `uploader` field
equal to the caller's session user id — for every uploader value
(including none) supplied in the request body. -/
theorem create_post_forces_uploader (s : SessionData) (p : PostBody)
    (r : Except String PostId) (doc : PostBody)
    (h : DbCall.postCreate doc ∈ (handle_posts_create (some s) (some p) r).dbCalls) :
    doc.uploader = some s.id := by
  cases hd : p.driverneeded <;>
    cases hp : p.passengers <;>
      cases r <;>
        simp [handle_posts_create, hd, hp] at h <;>
          simp [h]

/-- Witness for C1: the concrete session "alice" and the empty post body,
whose created document carries uploader "alice". -/
theorem create_post_forces_uploader_witness :
    ({ uploader := some "alice", driver := some "alice" } : PostBody).uploader
      = some "alice" :=
  create_post_forces_uploader ⟨"alice"⟩ {} (.ok "pid") _ (by decide)

/-- C2, counterexample: with `driverneeded := true` the driver field is NOT
left unset — the handler passes the body's own driver value straight
through to persistence. Session "caller" creating `bodyWithForeignDriver`
stores a post whose driver is still "mallory". -/
theorem create_post_driver_passthrough_cex :
    bodyWithForeignDriver.driverneeded = true ∧
    (handle_posts_create (some ⟨"caller"⟩) (some bodyWithForeignDriver)
        (.ok "pid")).dbCalls =
      [DbCall.postCreate { bodyWithForeignDriver with
          uploader := some "caller", passengers := some ["caller"] }] ∧
    ({ bodyWithForeignDriver with
        uploader := some "caller", passengers := some ["caller"] } : PostBody).driver
      = some "mallory" :=
  ⟨rfl, rfl, rfl⟩

/-- C2 as amended: if the body's `driverneeded` is true the caller is
appended to the passenger list and the driver field is passed through
unchanged from the body (so it is unset only when the body left it
unset); if `driverneeded` is false the caller becomes the driver and the
passenger list is passed through unchanged. -/
theorem create_post_slot_assignment (s : SessionData) (p : PostBody)
    (ps : List UserId) (r : Except String PostId) :
    (handle_posts_create (some s)
        (some { p with driverneeded := true, passengers := some ps }) r).dbCalls =
      [DbCall.postCreate { p with driverneeded := true, uploader := some s.id,
                                  passengers := some (ps ++ [s.id]) }] ∧
    (handle_posts_create (some s) (some { p with driverneeded := false }) r).dbCalls =
      [DbCall.postCreate { p with driverneeded := false, uploader := some s.id,
                                  driver := some s.id }] := by
  cases r <;> exact ⟨rfl, rfl⟩

/-- C3: when the post named by an add-passenger request has no assigned
driver, or its passenger count already equals its total seat count, the
request responds with exactly one failure response (`result: 0`) and the
post store is left unchanged — the failure is reported, not silently
swallowed into a success. -/
theorem add_passenger_rejects_no_driver_or_full (s : SessionData) (pid : PostId)
    (store : List (PostId × StoredPost)) (post : StoredPost)
    (hfind : store.lookup pid = some post)
    (hbad : post.driver = none ∨ post.passengers.length = post.totalseats) :
    ((run_posts_add_passenger (some s) (some pid) store).1.responses.map
        Envelope.result = [some 0]) ∧
    (run_posts_add_passenger (some s) (some pid) store).2 = store := by
  rcases hbad with hd | hfull
  · simp [run_posts_add_passenger, dbPostAddPassenger, hfind, hd,
      handle_posts_add_passenger]
  · by_cases hd : post.driver = none
    · simp [run_posts_add_passenger, dbPostAddPassenger, hfind, hd,
        handle_posts_add_passenger]
    · simp [run_posts_add_passenger, dbPostAddPassenger, hfind, hd, ← hfull,
        handle_posts_add_passenger]

/-- Witness for C3: a one-post store whose post has no driver (and no seats);
the request fails with `result: 0` and the store is unchanged. -/
theorem add_passenger_rejects_witness :
    ((run_posts_add_passenger (some ⟨"u"⟩) (some "p1")
        [("p1", {})]).1.responses.map Envelope.result = [some 0]) ∧
    (run_posts_add_passenger (some ⟨"u"⟩) (some "p1") [("p1", {})]).2
      = [("p1", {})] :=
  add_passenger_rejects_no_driver_or_full ⟨"u"⟩ "p1" [("p1", {})] {} rfl (Or.inl rfl)

/-- C4: every session-gated handler invoked without a valid session produces
exactly the session-gate rejection trace: the one unauthenticated
response and nothing else — in particular zero persistence-layer calls. -/
theorem no_session_means_auth_failure_and_no_db_calls :
    handle_users_logout none = sessionGateReject ∧
    (∀ ph r, handle_users_register none ph r = sessionGateReject) ∧
    (∀ u r, handle_users_by_id none u r = sessionGateReject) ∧
    (∀ t r, handle_users_register_fcm none t r = sessionGateReject) ∧
    (∀ r, handle_posts_all none r = sessionGateReject) ∧
    (∀ pid r, handle_posts_by_id none pid r = sessionGateReject) ∧
    (∀ a b r, handle_posts_search none a b r = sessionGateReject) ∧
    (∀ r, handle_posts_my_page none r = sessionGateReject) ∧
    (∀ p r, handle_posts_create none p r = sessionGateReject) ∧
    (∀ p r, handle_post_update none p r = sessionGateReject) ∧
    (∀ pid r, handle_posts_add_passenger none pid r = sessionGateReject) ∧
    (∀ pid a r, handle_posts_add_driver none pid a r = sessionGateReject) ∧
    (∀ r, handle_put_posts_update none r = sessionGateReject) ∧
    (∀ rep r, handle_report none rep r = sessionGateReject) ∧
    sessionGateReject.dbCalls = [] ∧
    sessionGateReject.responses = [unauthenticatedResponse] :=
  ⟨rfl, fun _ _ => rfl, fun _ _ => rfl, fun _ _ => rfl, fun _ => rfl,
   fun _ _ => rfl, fun _ _ _ => rfl, fun _ => rfl, fun _ _ => rfl,
   fun _ _ => rfl, fun _ _ => rfl, fun _ _ _ => rfl, fun _ => rfl,
   fun _ _ => rfl, rfl, rfl⟩

/-- C5, evaluation at the failing input: a login request with no token. The
handler writes the `success: false` response but — lacking a `return`
after it — still invokes `google_login.verify` with the absent token, and
the verifier's rejection path then writes a second response. -/
theorem login_missing_token_still_calls_verifier :
    (handle_users_login none (.error "invalid token") (.error ())
        (.error "db")).verifyCalls = [none] ∧
    (handle_users_login none (.error "invalid token") (.error ())
        (.error "db")).responses =
      [{ success := some false, needs_register := some false },
       { success := some false, needs_register := some false }] :=
  ⟨rfl, rfl⟩

/-- C6: a login whose token verifies to an email that is not registered
creates a user record containing exactly the verified name and email,
establishes a session for the new id, and responds with
`success: false`, `needs_register: true` and the new user's id. The
creation call is issued whatever the persistence outcome. -/
theorem login_unregistered_creates_user_and_prompts_register
    (tok : String) (user : VerifiedUser) (id : UserId) :
    handle_users_login (some tok) (.ok user) (.error ()) (.ok id) =
      { verifyCalls := [some tok],
        dbCalls := [.userCheckRegistered user.email,
                    .userCreate { name := user.name, email := user.email }],
        sessionCreates := [id],
        responses := [{ success := some false, needs_register := some true,
                        user_id := some id }] } ∧
    (∀ cr, (handle_users_login (some tok) (.ok user) (.error ()) cr).dbCalls =
      [.userCheckRegistered user.email,
       .userCreate { name := user.name, email := user.email }]) :=
  ⟨rfl, fun cr => by cases cr <;> rfl⟩

/-- C7, counterexample: a create-post body with `driverneeded` set and no
`passengers` array makes the handler throw a `TypeError` out of its body
— no response at all is written, so the failure is not swallowed into the
response envelope. -/
theorem create_post_throws_cex :
    handle_posts_create (some ⟨"u"⟩) (some bodyWithoutPassengers) (.ok "pid") =
      { threw := some "TypeError: cannot read push of undefined" } ∧
    (handle_posts_create (some ⟨"u"⟩) (some bodyWithoutPassengers)
        (.ok "pid")).responses = [] :=
  ⟨rfl, rfl⟩

/-- C7 as amended: every handler on every input terminates normally with at
least one response written — except `/posts/create` on a body with
`driverneeded` truthy and no `passengers` array, where a `TypeError`
escapes the handler body and no response is written. -/
theorem handlers_always_respond_except_create_missing_passengers :
    terminatesWithResponse handle_index = true ∧
    (∀ t v c cr, terminatesWithResponse (handle_users_login t v c cr) = true) ∧
    (∀ s, terminatesWithResponse (handle_users_logout s) = true) ∧
    (∀ s ph r, terminatesWithResponse (handle_users_register s ph r) = true) ∧
    (∀ s u r, terminatesWithResponse (handle_users_by_id s u r) = true) ∧
    (∀ s t r, terminatesWithResponse (handle_users_register_fcm s t r) = true) ∧
    (∀ s r, terminatesWithResponse (handle_posts_all s r) = true) ∧
    (∀ s pid r, terminatesWithResponse (handle_posts_by_id s pid r) = true) ∧
    (∀ s a b r, terminatesWithResponse (handle_posts_search s a b r) = true) ∧
    (∀ s r, terminatesWithResponse (handle_posts_my_page s r) = true) ∧
    (∀ sess post r, terminatesWithResponse (handle_posts_create sess post r) =
        !(sess.isSome && createThrows post)) ∧
    (∀ s p r, terminatesWithResponse (handle_post_update s p r) = true) ∧
    (∀ s pid r, terminatesWithResponse (handle_posts_add_passenger s pid r) = true) ∧
    (∀ s pid a r, terminatesWithResponse (handle_posts_add_driver s pid a r) = true) ∧
    (∀ s r, terminatesWithResponse (handle_put_posts_update s r) = true) ∧
    (∀ s rep r, terminatesWithResponse (handle_report s rep r) = true) := by
  refine ⟨rfl, ?_, ?_, ?_, ?_, ?_, ?_, ?_, ?_, ?_, ?_, ?_, ?_, ?_, ?_, ?_⟩
  · intro t v c cr
    cases t <;> cases v <;> cases c <;> cases cr <;> rfl
  · intro s; cases s <;> rfl
  · intro s ph r
    cases s <;> [rfl; (cases ph <;> cases r <;> rfl)]
  · intro s u r
    cases s <;> [rfl; (cases u <;> [rfl; (cases r <;> rfl)])]
  · intro s t r
    cases s <;> [rfl; (cases t <;> [rfl; (cases r <;> rfl)])]
  · intro s r
    cases s <;> [rfl; (cases r <;> rfl)]
  · intro s pid r
    cases s <;> [rfl; (cases pid <;> [rfl; (rcases r with e | (_ | p) <;> rfl)])]
  · intro s a b r
    cases s <;> [rfl; (cases r <;> rfl)]
  · intro s r
    cases s <;> [rfl; (cases r <;> rfl)]
  · intro sess post r
    cases sess <;> [rfl; skip]
    cases post with
    | none => rfl
    | some p =>
      obtain ⟨pid, upl, drv, pass, dn, o, d, m, t, dep⟩ := p
      cases dn <;> cases pass <;> cases r <;> rfl
  · intro s p r
    cases s <;> [rfl; (cases p <;> [rfl; (cases r <;> rfl)])]
  · intro s pid r
    cases s <;> [rfl; (cases pid <;> [rfl; (cases r <;> rfl)])]
  · intro s pid a r
    cases s <;> [rfl; (cases pid <;> [rfl; (cases r <;> rfl)])]
  · intro s r
    cases s <;> [rfl; (rcases r with e | (_ | p) <;> rfl)]
  · intro s rep r
    cases s <;> [rfl; (cases r <;> rfl)]

/-- C8, counterexample: the update-by-id operation (`PUT
/posts/update/:post_id`) does NOT surface the persistence rejection
message — on a rejection with message "boom" it responds `{result: 0}`
whose `error` field is absent. -/
theorem put_update_drops_error_message_cex :
    (handle_put_posts_update (some ⟨"u"⟩) (.error "boom")).responses =
      [{ result := some 0 }] ∧
    ({ result := some 0 } : Envelope).error = none :=
  ⟨rfl, rfl⟩

/-- C8 as amended: create, full update, add passenger and add driver respond
`{result: 1}` plus payload on success and `{result: 0, error: m}` with
the persistence rejection message `m` verbatim on failure; update-by-id
deviates — it responds `{result: 1}` on success but a bare `{result: 0}`
on rejection (the message is discarded), and HTTP 404
`{error: 'post not found'}` without a `result` field when the post
resolves to null. -/
theorem mutation_envelope_discipline (s : SessionData) (p : PostBody)
    (ps : List UserId) (pid : PostId) (a : Option Nat) (m : String)
    (id : PostId) :
    (handle_posts_create (some s) (some { p with driverneeded := false })
        (.error m)).responses = [{ result := some 0, error := some m }] ∧
    (handle_posts_create (some s) (some { p with driverneeded := false })
        (.ok id)).responses = [{ result := some 1, post_id := some id }] ∧
    (handle_posts_create (some s)
        (some { p with driverneeded := true, passengers := some ps })
        (.error m)).responses = [{ result := some 0, error := some m }] ∧
    (handle_post_update (some s) (some p) (.error m)).responses =
      [{ result := some 0, error := some m }] ∧
    (handle_post_update (some s) (some p) (.ok ())).responses =
      [{ result := some 1 }] ∧
    (handle_posts_add_passenger (some s) (some pid) (.error m)).responses =
      [{ result := some 0, error := some m }] ∧
    (handle_posts_add_passenger (some s) (some pid) (.ok ())).responses =
      [{ result := some 1 }] ∧
    (handle_posts_add_driver (some s) (some pid) a (.error m)).responses =
      [{ result := some 0, error := some m }] ∧
    (handle_posts_add_driver (some s) (some pid) a (.ok ())).responses =
      [{ result := some 1 }] ∧
    (handle_put_posts_update (some s) (.ok (some {}))).responses =
      [{ result := some 1 }] ∧
    (handle_put_posts_update (some s) (.error m)).responses =
      [{ result := some 0 }] ∧
    (handle_put_posts_update (some s) (.ok none)).responses =
      [{ status := some 404, error := some "post not found" }] :=
  ⟨rfl, rfl, rfl, rfl, rfl, rfl, rfl, rfl, rfl, rfl, rfl, rfl⟩

/-- C9, counterexample: the report schema does not declare `reporter` as a
reference to a User identifier — it declares it as an embedded
subdocument with a single string field `email`. -/
theorem report_reporter_not_user_ref_cex :
    reportSchema.lookup "reporter" =
      some (FieldType.subdoc [("email", FieldType.str)]) ∧
    ¬ reporterIsUserRef := by
  refine ⟨rfl, ?_⟩
  rintro ⟨model, hm⟩
  rw [show reportSchema.lookup "reporter" =
      some (FieldType.subdoc [("email", FieldType.str)]) from rfl] at hm
  injection hm with hm
  exact FieldType.noConfusion hm

/-- C9 as amended: every stored report record's `reporter` field holds an
embedded subdocument with a reporter email string — no field of the
report schema is an ObjectId reference to any model, so in particular
`reporter` is not a reference to `User.identifier`. -/
theorem report_reporter_is_email_subdoc :
    reportSchema.lookup "reporter" =
      some (FieldType.subdoc [("email", FieldType.str)]) ∧
    reportSchema.all (fun f => ! f.2.isRef) = true :=
  ⟨rfl, rfl⟩

/-- C10: every handler other than `/users/login` and `/users/register` writes
at most one response on any input, and each of their missing-required-
field branches produces exactly the failure response and returns before
any persistence call (the trace holds no `dbCalls`). -/
theorem single_response_and_early_return_on_missing_field :
    (handle_index.responses.length ≤ 1) ∧
    (∀ s, (handle_users_logout s).responses.length ≤ 1) ∧
    (∀ s u r, (handle_users_by_id s u r).responses.length ≤ 1) ∧
    (∀ s t r, (handle_users_register_fcm s t r).responses.length ≤ 1) ∧
    (∀ s r, (handle_posts_all s r).responses.length ≤ 1) ∧
    (∀ s pid r, (handle_posts_by_id s pid r).responses.length ≤ 1) ∧
    (∀ s a b r, (handle_posts_search s a b r).responses.length ≤ 1) ∧
    (∀ s r, (handle_posts_my_page s r).responses.length ≤ 1) ∧
    (∀ sess post r, (handle_posts_create sess post r).responses.length ≤ 1) ∧
    (∀ s p r, (handle_post_update s p r).responses.length ≤ 1) ∧
    (∀ s pid r, (handle_posts_add_passenger s pid r).responses.length ≤ 1) ∧
    (∀ s pid a r, (handle_posts_add_driver s pid a r).responses.length ≤ 1) ∧
    (∀ s r, (handle_put_posts_update s r).responses.length ≤ 1) ∧
    (∀ s rep r, (handle_report s rep r).responses.length ≤ 1) ∧
    (∀ s r, handle_users_by_id (some s) none r =
      { responses := [{ result := some 0, error := some "Did not recieve an ID" }] }) ∧
    (∀ s r, handle_users_register_fcm (some s) none r =
      { responses := [{ result := some 0, error := some "Did not recieve token" }] }) ∧
    (∀ s r, handle_posts_by_id (some s) none r =
      { responses := [{ result := some 0, error := some "No post_id passed" }] }) ∧
    (∀ s r, handle_posts_create (some s) none r =
      { responses := [{ result := some 0, error := some "No post passed to create" }] }) ∧
    (∀ s r, handle_post_update (some s) none r =
      { responses := [{ result := some 0, error := some "no post passed" }] }) ∧
    (∀ s r, handle_posts_add_passenger (some s) none r =
      { responses := [{ result := some 0, error := some "No post id" }] }) ∧
    (∀ s a r, handle_posts_add_driver (some s) none a r =
      { responses := [{ result := some 0, error := some "No post id" }] }) := by
  refine ⟨by simp [handle_index], ?_, ?_, ?_, ?_, ?_, ?_, ?_, ?_, ?_, ?_, ?_,
    ?_, ?_,
    fun _ _ => rfl, fun _ _ => rfl, fun _ _ => rfl, fun _ _ => rfl,
    fun _ _ => rfl, fun _ _ => rfl, fun _ _ _ => rfl⟩
  · intro s
    cases s <;> simp [handle_users_logout, sessionGateReject]
  · intro s u r
    cases s <;> cases u <;> cases r <;>
      simp [handle_users_by_id, sessionGateReject]
  · intro s t r
    cases s <;> cases t <;> cases r <;>
      simp [handle_users_register_fcm, sessionGateReject]
  · intro s r
    cases s <;> cases r <;> simp [handle_posts_all, sessionGateReject]
  · intro s pid r
    cases s <;> cases pid <;> rcases r with e | (_ | p) <;>
      simp [handle_posts_by_id, sessionGateReject]
  · intro s a b r
    cases s <;> cases r <;> simp [handle_posts_search, sessionGateReject]
  · intro s r
    cases s <;> cases r <;> simp [handle_posts_my_page, sessionGateReject]
  · intro sess post r
    cases sess with
    | none => simp [handle_posts_create, sessionGateReject]
    | some s =>
      cases post with
      | none => simp [handle_posts_create]
      | some p =>
        obtain ⟨pid, upl, drv, pass, dn, o, d, m, t, dep⟩ := p
        cases dn <;> cases pass <;> cases r <;> simp [handle_posts_create]
  · intro s p r
    cases s <;> cases p <;> cases r <;>
      simp [handle_post_update, sessionGateReject]
  · intro s pid r
    cases s <;> cases pid <;> cases r <;>
      simp [handle_posts_add_passenger, sessionGateReject]
  · intro s pid a r
    cases s <;> cases pid <;> cases r <;>
      simp [handle_posts_add_driver, sessionGateReject]
  · intro s r
    cases s <;> rcases r with e | (_ | p) <;>
      simp [handle_put_posts_update, sessionGateReject]
  · intro s rep r
    cases s <;> cases r <;> simp [handle_report, sessionGateReject]

end UCShareCar
